import Mathlib

/-!
Shallow embedding of `src/video_analyzer/audio_processor.py`.

The module defines a dataclass `AudioTranscript` and a class `AudioProcessor`
with two operations: `extract_audio` (ffmpeg primary strategy, pydub
fallback) and `transcribe` (faster-whisper model call with fixed
configuration, VAD filtering and quality gating).

External effects are embedded as data: the outcomes of the two extraction
strategies and the behaviour of the loaded Whisper model are inputs to the
embedded functions, and the observable actions (returned value or raised
error, directory creation, which strategies ran, log messages) are their
outputs.  Python float values that the code only copies around are embedded
as exact rationals, since no floating-point arithmetic is performed on them.
-/

set_option autoImplicit false

/-- A message emitted through the module logger, tagged with its level.
`exception` stands for `logger.exception(e)` on line 135. -/
inductive LogMsg where
  | debug (msg : String)
  | info (msg : String)
  | warning (msg : String)
  | error (msg : String)
  | exception (msg : String)
deriving DecidableEq, Repr

/-- Python values that appear in the segment dictionaries built by
`transcribe` (lines 109-125): strings, floats, lists and string-keyed
dicts.  Dicts are embedded as association lists in insertion order. -/
inductive PyVal where
  | pstr (s : String)
  | pnum (q : Rat)
  | plist (xs : List PyVal)
  | pdict (kvs : List (String × PyVal))

/-- Key lookup in an embedded Python dict (`d["k"]`); `none` on a missing
key or a non-dict value. -/
def PyVal.lookup : PyVal → String → Option PyVal
  | .pdict kvs, k => kvs.lookup k
  | _, _ => none

/-- A raw word span as produced by the model (faster-whisper `Word`):
attributes `word`, `start`, `end`, `probability` read on lines 117-119. -/
structure RawWord where
  word : String
  start : Rat
  «end» : Rat
  probability : Rat
deriving DecidableEq, Repr

/-- A raw segment as produced by the model.  `words` is optional because
the code guards with `segment.words or []` on line 121. -/
structure RawSegment where
  text : String
  start : Rat
  «end» : Rat
  words : Option (List RawWord)
deriving DecidableEq, Repr

/-- The info object returned next to the segments; the code reads only its
detected language (line 130). -/
structure TranscriptionInfo where
  language : String
deriving DecidableEq, Repr

/-- Observable outcome of one `self.model.transcribe` call together with
the subsequent materialization `list(segments)` (line 103): either the
fully drained segment sequence with the info object, or an exception
message raised anywhere inside the `try` block. -/
inductive ModelResult where
  | ok (segments : List RawSegment) (info : TranscriptionInfo)
  | exn (msg : String)
deriving DecidableEq, Repr

/-- The keyword arguments `transcribe` passes to the model (lines 95-101). -/
structure TranscribeConfig where
  beam_size : Nat
  word_timestamps : Bool
  vad_filter : Bool
  min_silence_duration_ms : Nat
deriving DecidableEq, Repr

/-- The fixed configuration of lines 97-100: `beam_size=5`,
`word_timestamps=True`, `vad_filter=True`,
`vad_parameters=dict(min_silence_duration_ms=500)`. -/
def whisperConfig : TranscribeConfig :=
  { beam_size := 5
    word_timestamps := true
    vad_filter := true
    min_silence_duration_ms := 500 }

/-- Per-instance state established by `AudioProcessor.__init__`
(lines 20-51): the loaded model — embedded by its observable behaviour,
mapping an audio path and a configuration to an outcome — the selected
device string, and the ffmpeg capability flag set by the probe on
lines 42-47. -/
structure AudioProcessorState where
  model : String → TranscribeConfig → ModelResult
  device : String
  has_ffmpeg : Bool

/-- Outcome of the primary `subprocess.run(["ffmpeg", ...], check=True)`
invocation (lines 60-68): success, `subprocess.CalledProcessError` with
captured stderr on a non-zero exit, or `FileNotFoundError` when the
binary is absent. -/
inductive FfmpegOutcome where
  | success
  | calledProcessError (stderr : String)
  | fileNotFound
deriving DecidableEq, Repr

/-- Outcome of the pydub fallback (lines 77-79): decode, downmix,
resample and export either succeed or raise with a message. -/
inductive PydubOutcome where
  | success
  | failure (msg : String)
deriving DecidableEq, Repr

/-- What the environment would make each extraction strategy do on the
given input. -/
structure ExtractEnv where
  ffmpeg : FfmpegOutcome
  pydub : PydubOutcome
deriving DecidableEq, Repr

/-- How one `extract_audio` call ends: the returned path, the
`RuntimeError` raised on lines 84-89 after both strategies failed, or an
exception escaping uncaught. -/
inductive ExtractResult where
  | ok (path : String)
  | runtimeError (msg : String)
  | uncaught (exc : String)
deriving DecidableEq, Repr

/-- Observable trace of one `extract_audio` call: its result, whether the
output directory was created (`output_dir.mkdir` on line 56), which of
the two strategies were attempted, and the emitted log messages. -/
structure ExtractTrace where
  result : ExtractResult
  mkdirCalled : Bool
  ffmpegAttempted : Bool
  pydubAttempted : Bool
  logs : List LogMsg
deriving DecidableEq, Repr

/-- The remediation text of the `RuntimeError` on lines 84-89. -/
def installMsg : String :=
  "Failed to extract audio. Please install ffmpeg using:\n" ++
  "Ubuntu/Debian: sudo apt-get update && sudo apt-get install -y ffmpeg\n" ++
  "MacOS: brew install ffmpeg\n" ++
  "Windows: choco install ffmpeg"

/-- `AudioProcessor.extract_audio` (lines 53-89).  The destination
`audio_path = output_dir / "audio.wav"` is fixed before any strategy runs
and `mkdir` precedes the `try`.  Only `subprocess.CalledProcessError` is
caught on line 72, so a `FileNotFoundError` from the primary invocation
escapes uncaught and the fallback never runs.  The body reads nothing
from `self`. -/
def AudioProcessor.extract_audio (self : AudioProcessorState) (env : ExtractEnv)
    (video_path output_dir : String) : ExtractTrace :=
  let audio_path := output_dir ++ "/audio.wav"
  match env.ffmpeg with
  | .success =>
      { result := .ok audio_path
        mkdirCalled := true
        ffmpegAttempted := true
        pydubAttempted := false
        logs := [.debug "Successfully extracted audio using ffmpeg"] }
  | .calledProcessError stderr =>
      match env.pydub with
      | .success =>
          { result := .ok audio_path
            mkdirCalled := true
            ffmpegAttempted := true
            pydubAttempted := true
            logs := [.error ("FFmpeg error: " ++ stderr),
                     .info "Falling back to pydub for audio extraction...",
                     .debug "Successfully extracted audio using pydub"] }
      | .failure msg =>
          { result := .runtimeError installMsg
            mkdirCalled := true
            ffmpegAttempted := true
            pydubAttempted := true
            logs := [.error ("FFmpeg error: " ++ stderr),
                     .info "Falling back to pydub for audio extraction...",
                     .error ("Error extracting audio using pydub: " ++ msg)] }
  | .fileNotFound =>
      { result := .uncaught "FileNotFoundError"
        mkdirCalled := true
        ffmpegAttempted := true
        pydubAttempted := false
        logs := [] }

/-- One word dictionary as built on lines 115-120: keys `word`, `start`,
`end`, `probability`, each value copied from the raw word. -/
def wordEntry (w : RawWord) : PyVal :=
  .pdict [("word", .pstr w.word), ("start", .pnum w.start),
          ("end", .pnum w.«end»), ("probability", .pnum w.probability)]

/-- One segment dictionary as built on lines 109-125: keys `text`,
`start`, `end` copied from the raw segment, and `words` mapping
`wordEntry` over `segment.words or []`. -/
def segmentEntry (s : RawSegment) : PyVal :=
  .pdict [("text", .pstr s.text), ("start", .pnum s.start),
          ("end", .pnum s.«end»),
          ("words", .plist ((s.words.getD []).map wordEntry))]

/-- The `AudioTranscript` dataclass (lines 13-17). -/
structure AudioTranscript where
  text : String
  segments : List PyVal
  language : String

/-- `AudioProcessor.transcribe` (lines 91-136), returning the result and
the emitted log messages.  The model is queried at `whisperConfig`; an
exception is caught, logged and turned into `None`; an empty materialized
segment list yields `None` with a warning; otherwise the transcript is
built with `" ".join(segment.text for segment in segments_list)` and the
segment dictionaries in emission order. -/
def AudioProcessor.transcribe (self : AudioProcessorState)
    (audio_path : String) : Option AudioTranscript × List LogMsg :=
  match self.model audio_path whisperConfig with
  | .exn msg =>
      (none, [.error ("Error transcribing audio: " ++ msg), .exception msg])
  | .ok segments info =>
      let segments_list := segments
      if segments_list.isEmpty then
        (none, [.warning "No speech detected in audio"])
      else
        (some { text := String.intercalate " " (segments_list.map RawSegment.text)
                segments := segments_list.map segmentEntry
                language := info.language },
         [])

/-- A model that reports no speech at all, and a processor state holding
it; used to evaluate the embedded operations on concrete inputs. -/
def sampleModel : String → TranscribeConfig → ModelResult :=
  fun _ _ => .ok [] ⟨"en"⟩

/-- A concrete processor state with the silent model. -/
def sampleProc : AudioProcessorState := ⟨sampleModel, "cpu", true⟩

/-- A concrete raw word, segment, and processor state whose model emits
exactly one segment containing one word; used to evaluate `transcribe`
on a successful run. -/
def rawWordC2 : RawWord :=
  { word := "hello", start := 0, «end» := 1, probability := 1 }

/-- The one-segment model output containing `rawWordC2`. -/
def rawSegC2 : RawSegment :=
  { text := " hello", start := 0, «end» := 1, words := some [rawWordC2] }

/-- Processor state whose model emits `[rawSegC2]` with language `en`. -/
def procC2 : AudioProcessorState :=
  ⟨fun _ _ => .ok [rawSegC2] ⟨"en"⟩, "cpu", true⟩

/-- Processor state whose model raises on every call. -/
def procErr : AudioProcessorState :=
  ⟨fun _ _ => .exn "boom", "cpu", true⟩

/-! ## Claims -/

/-- C1 (the code contradicts the claim): with ffmpeg absent the primary
invocation raises `FileNotFoundError`, which line 72's
`except subprocess.CalledProcessError` does not catch; `extract_audio`
propagates the error without ever attempting the pydub fallback, even
though the fallback would have succeeded. -/
theorem c1_ffmpeg_missing_skips_fallback :
    (AudioProcessor.extract_audio sampleProc ⟨.fileNotFound, .success⟩
      "video.mp4" "out").pydubAttempted = false ∧
    (AudioProcessor.extract_audio sampleProc ⟨.fileNotFound, .success⟩
      "video.mp4" "out").result = .uncaught "FileNotFoundError" :=
  ⟨rfl, rfl⟩

/-- C2 counterexample: a successful `transcribe` call whose word record
carries the word text under the key `word`; looking up a field named
`text` on that record yields nothing, refuting the claimed field set
text/start/end/probability. -/
theorem c2_counterexample :
    (AudioProcessor.transcribe procC2 "audio.wav").1 =
      some { text := " hello"
             segments := [segmentEntry rawSegC2]
             language := "en" } ∧
    (segmentEntry rawSegC2).lookup "words" =
      some (.plist [wordEntry rawWordC2]) ∧
    (wordEntry rawWordC2).lookup "text" = none ∧
    (wordEntry rawWordC2).lookup "word" = some (.pstr "hello") :=
  ⟨rfl, rfl, rfl, rfl⟩

/-- C2 (amended): on every successful `transcribe` call each word record
has the fields `word`, `start`, `end` and `probability`, copied verbatim
from the corresponding raw word; the stored probability therefore lies in
the unit interval exactly when the model's raw probability does. -/
theorem c2_word_fields (self : AudioProcessorState) (audio_path : String)
    (segs : List RawSegment) (info : TranscriptionInfo)
    (hm : self.model audio_path whisperConfig = ModelResult.ok segs info)
    (hne : segs ≠ []) :
    (AudioProcessor.transcribe self audio_path).1 =
      some { text := String.intercalate " " (segs.map RawSegment.text)
             segments := segs.map segmentEntry
             language := info.language } ∧
    ∀ s ∈ segs, (segmentEntry s).lookup "words" =
        some (PyVal.plist ((s.words.getD []).map wordEntry)) ∧
      ∀ w ∈ s.words.getD [],
        (wordEntry w).lookup "word" = some (PyVal.pstr w.word) ∧
        (wordEntry w).lookup "start" = some (PyVal.pnum w.start) ∧
        (wordEntry w).lookup "end" = some (PyVal.pnum w.«end») ∧
        (wordEntry w).lookup "probability" = some (PyVal.pnum w.probability) ∧
        ((0 ≤ w.probability ∧ w.probability ≤ 1) ↔
          ∃ q, (wordEntry w).lookup "probability" = some (PyVal.pnum q) ∧
            0 ≤ q ∧ q ≤ 1) := by
  constructor
  · cases segs with
    | nil => exact absurd rfl hne
    | cons s ss => simp [AudioProcessor.transcribe, hm]
  · intro s _
    refine ⟨rfl, ?_⟩
    intro w _
    refine ⟨rfl, rfl, rfl, rfl, ?_⟩
    constructor
    · intro hq
      exact ⟨w.probability, rfl, hq.1, hq.2⟩
    · rintro ⟨q, hq, h0, h1⟩
      have : q = w.probability := by
        have := hq
        simp [wordEntry, PyVal.lookup, List.lookup] at this
        exact this.symm
      exact ⟨this ▸ h0, this ▸ h1⟩

/-- C2 witness: the amended theorem applied to the concrete one-word
model run. -/
theorem c2_word_fields_witness :
    (AudioProcessor.transcribe procC2 "audio.wav").1 =
      some { text := String.intercalate " " ([rawSegC2].map RawSegment.text)
             segments := [rawSegC2].map segmentEntry
             language := "en" } :=
  (c2_word_fields procC2 "audio.wav" [rawSegC2] ⟨"en"⟩ rfl
    (List.cons_ne_nil _ _)).1

/-- C3: on every successful `transcribe` call the transcript's full text
is the space-joined concatenation of the segment texts in the model's
emission order (line 128). -/
theorem c3_full_text_join (self : AudioProcessorState) (audio_path : String)
    (segs : List RawSegment) (info : TranscriptionInfo)
    (hm : self.model audio_path whisperConfig = ModelResult.ok segs info)
    (hne : segs ≠ []) :
    ((AudioProcessor.transcribe self audio_path).1).map AudioTranscript.text =
      some (String.intercalate " " (segs.map RawSegment.text)) := by
  cases segs with
  | nil => exact absurd rfl hne
  | cons s ss => simp [AudioProcessor.transcribe, hm]

/-- C3 witness: the theorem applied to the concrete one-segment model
run. -/
theorem c3_full_text_join_witness :
    ((AudioProcessor.transcribe procC2 "audio.wav").1).map AudioTranscript.text =
      some (String.intercalate " " ([rawSegC2].map RawSegment.text)) :=
  c3_full_text_join procC2 "audio.wav" [rawSegC2] ⟨"en"⟩ rfl
    (List.cons_ne_nil _ _)

/-- C4: whenever the model raises during transcription, `transcribe`
returns `None` and logs the error (lines 133-136); in the embedding the
function is total over every model outcome, so no exception reaches the
caller. -/
theorem c4_model_error_absent (self : AudioProcessorState)
    (audio_path msg : String)
    (hm : self.model audio_path whisperConfig = ModelResult.exn msg) :
    (AudioProcessor.transcribe self audio_path).1 = none ∧
    (AudioProcessor.transcribe self audio_path).2 =
      [.error ("Error transcribing audio: " ++ msg), .exception msg] := by
  simp [AudioProcessor.transcribe, hm]

/-- C4 witness: the theorem applied to a model that always raises. -/
theorem c4_model_error_absent_witness :
    (AudioProcessor.transcribe procErr "a.wav").1 = none :=
  (c4_model_error_absent procErr "a.wav" "boom" rfl).1

/-- C5: when the materialized segment list is empty, `transcribe`
returns `None` and logs the no-speech diagnostic (lines 103-106). -/
theorem c5_no_speech_none (self : AudioProcessorState)
    (audio_path : String) (info : TranscriptionInfo)
    (hm : self.model audio_path whisperConfig = ModelResult.ok [] info) :
    (AudioProcessor.transcribe self audio_path).1 = none ∧
    (AudioProcessor.transcribe self audio_path).2 =
      [.warning "No speech detected in audio"] := by
  simp [AudioProcessor.transcribe, hm]

/-- C5 witness: the theorem applied to the silent model. -/
theorem c5_no_speech_none_witness :
    (AudioProcessor.transcribe sampleProc "a.wav").1 = none :=
  (c5_no_speech_none sampleProc "a.wav" ⟨"en"⟩ rfl).1

set_option maxRecDepth 10000 in
/-- C6: whenever the primary strategy fails with a non-zero exit and run
of the fallback fails too, `extract_audio` raises the `RuntimeError`
whose message names ffmpeg and carries the install commands for
Ubuntu/Debian, macOS and Windows (lines 84-89). -/
theorem c6_error_names_tool (self : AudioProcessorState)
    (video out stderr msg : String) :
    (AudioProcessor.extract_audio self ⟨.calledProcessError stderr, .failure msg⟩
      video out).result = .runtimeError installMsg ∧
    "ffmpeg".data <:+: installMsg.data ∧
    "Ubuntu/Debian: sudo apt-get update && sudo apt-get install -y ffmpeg".data
      <:+: installMsg.data ∧
    "MacOS: brew install ffmpeg".data <:+: installMsg.data ∧
    "Windows: choco install ffmpeg".data <:+: installMsg.data := by
  refine ⟨rfl, ?_, ?_, ?_, ?_⟩ <;> decide

/-- C7: the destination path is fixed before either strategy runs
(line 55) and the output directory is created (line 56); every successful
call returns exactly `output_dir ++ "/audio.wav"`, whichever strategy
succeeded. -/
theorem c7_fixed_output_path (self : AudioProcessorState)
    (video out : String) :
    (∀ env : ExtractEnv,
      (AudioProcessor.extract_audio self env video out).mkdirCalled = true) ∧
    (∀ env : ExtractEnv, ∀ p,
      (AudioProcessor.extract_audio self env video out).result = .ok p →
        p = out ++ "/audio.wav") ∧
    (AudioProcessor.extract_audio self ⟨.success, .success⟩ video out).result =
      .ok (out ++ "/audio.wav") ∧
    ∀ stderr,
      (AudioProcessor.extract_audio self
        ⟨.calledProcessError stderr, .success⟩ video out).result =
      .ok (out ++ "/audio.wav") := by
  refine ⟨?_, ?_, rfl, fun _ => rfl⟩
  · rintro ⟨ff, pd⟩
    cases ff <;> cases pd <;> rfl
  · rintro ⟨ff, pd⟩ p h
    cases ff <;> cases pd <;>
      simp [AudioProcessor.extract_audio] at h <;> exact h.symm

/-- C7 witness: the `result = ok p` hypothesis discharged at a concrete
successful call. -/
theorem c7_fixed_output_path_witness :
    ("out/audio.wav" : String) = "out" ++ "/audio.wav" :=
  (c7_fixed_output_path sampleProc "v.mp4" "out").2.1
    ⟨.success, .success⟩ "out/audio.wav" rfl

/-- C8: the configuration handed to the model is the fixed record
beam 5 / word timestamps on / VAD filtering on / 500 ms minimum silence,
and `transcribe` consults the model only at that configuration: two
models agreeing there give identical results, whatever they do at any
other configuration. -/
theorem c8_fixed_config (m₁ m₂ : String → TranscribeConfig → ModelResult)
    (d₁ d₂ : String) (b₁ b₂ : Bool) (audio_path : String)
    (h : m₁ audio_path whisperConfig = m₂ audio_path whisperConfig) :
    whisperConfig = ⟨5, true, true, 500⟩ ∧
    AudioProcessor.transcribe ⟨m₁, d₁, b₁⟩ audio_path =
      AudioProcessor.transcribe ⟨m₂, d₂, b₂⟩ audio_path := by
  refine ⟨rfl, ?_⟩
  show (match m₁ audio_path whisperConfig with
        | ModelResult.exn msg =>
            ((none : Option AudioTranscript),
             [LogMsg.error ("Error transcribing audio: " ++ msg),
              LogMsg.exception msg])
        | ModelResult.ok segments info =>
            let segments_list := segments
            if segments_list.isEmpty then
              (none, [LogMsg.warning "No speech detected in audio"])
            else
              (some { text := String.intercalate " "
                        (segments_list.map RawSegment.text)
                      segments := segments_list.map segmentEntry
                      language := info.language },
               [])) = _
  rw [h]
  rfl

/-- C8 witness: two states differing in device and flag but sharing the
model agree on `transcribe`. -/
theorem c8_fixed_config_witness :
    AudioProcessor.transcribe ⟨sampleModel, "cpu", true⟩ "a.wav" =
      AudioProcessor.transcribe ⟨sampleModel, "gpu", false⟩ "a.wav" :=
  (c8_fixed_config sampleModel sampleModel "cpu" "gpu" true false
    "a.wav" rfl).2

/-- C9: `extract_audio` never reads the `has_ffmpeg` capability flag:
two states sharing model and device but with arbitrary flag values
produce identical traces on every input and environment. -/
theorem c9_flag_unused (m : String → TranscribeConfig → ModelResult)
    (d : String) (b₁ b₂ : Bool) (env : ExtractEnv) (video out : String) :
    AudioProcessor.extract_audio ⟨m, d, b₁⟩ env video out =
      AudioProcessor.extract_audio ⟨m, d, b₂⟩ env video out := rfl

/-- C10: every transcript `transcribe` returns has a non-empty segment
list, obtained by mapping the segment-dictionary construction over the
materialized model segments, so count and order match the model's
emission. -/
theorem c10_nonempty_segments (self : AudioProcessorState)
    (audio_path : String) (t : AudioTranscript)
    (h : (AudioProcessor.transcribe self audio_path).1 = some t) :
    t.segments ≠ [] ∧
    ∃ segs info, self.model audio_path whisperConfig = ModelResult.ok segs info ∧
      segs ≠ [] ∧ t.segments = segs.map segmentEntry ∧
      t.segments.length = segs.length := by
  simp only [AudioProcessor.transcribe] at h
  cases hr : self.model audio_path whisperConfig with
  | exn msg => rw [hr] at h; simp at h
  | ok segs info =>
      rw [hr] at h
      cases segs with
      | nil => simp at h
      | cons s ss =>
          simp only [List.isEmpty_cons, Bool.false_eq_true, if_false,
            Option.some.injEq] at h
          refine ⟨?_, s :: ss, info, rfl, List.cons_ne_nil _ _, ?_, ?_⟩
          · rw [← h]; simp
          · rw [← h]
          · rw [← h]; simp

/-- C10 witness: the theorem applied to the concrete one-segment run. -/
theorem c10_nonempty_segments_witness :
    ({ text := " hello"
       segments := [segmentEntry rawSegC2]
       language := "en" } : AudioTranscript).segments ≠ [] :=
  (c10_nonempty_segments procC2 "audio.wav"
    { text := " hello", segments := [segmentEntry rawSegC2], language := "en" }
    rfl).1
